import Mathlib

/-!
# Verification of the LLM API gateway core (ai_service)

A shallow embedding, in Lean 4, of the protocol-adaptation and dispatch layer
of the `ai_service` gateway: the error sanitiser and error envelope of the
HTTP frontend (`api/openai_handler.py`), the retry engine (`core/retry.py`),
the router (`core/router.py`), the model registry (`core/registry.py`), the
SSE streaming send loop, and the Anthropic / Cohere / Tencent protocol
converters (`core/adapter/converters/`).  Python strings are embedded as
`String`, Python floats as `ℚ`, machine words (in SHA-256) as `Nat` reduced
`% 2 ^ 32`, fallible Python code as `Except`.
-/

namespace AiService

/-! ## Python string primitives

`strContains hay needle` is Python's `needle in hay`; `lowerStr` is
`str.lower` (ASCII case folding via `Char.toLower`, which is the identity on
the CJK characters appearing in this code base). -/

/-- Python `needle in hay` on strings: substring containment. -/
def strContains (hay needle : String) : Bool :=
  decide (needle.data <:+: hay.data)

/-- Python `s.lower()` (ASCII case folding). -/
def lowerStr (s : String) : String :=
  ⟨s.data.map Char.toLower⟩

/-- Python `any(kw in s for kw in kws)`. -/
def anyContains (s : String) (kws : List String) : Bool :=
  kws.any (fun kw => strContains s kw)

/-! ## Error sanitisation (`AIRequestHandler._sanitize_error`)

```python
def _sanitize_error(self, error_msg: str) -> str:
    if 'api_key' in error_msg.lower() or 'key' in error_msg.lower():
        return "API 配置错误"
    if len(error_msg) > 200:
        return error_msg[:200] + "..."
    return error_msg
```
-/

/-- `AIRequestHandler._sanitize_error` (openai_handler.py:766-772). -/
def sanitizeError (errorMsg : String) : String :=
  if strContains (lowerStr errorMsg) "api_key" || strContains (lowerStr errorMsg) "key" then
    "API 配置错误"
  else if errorMsg.length > 200 then
    ⟨errorMsg.data.take 200⟩ ++ "..."
  else
    errorMsg

/-! ## Errors and the retry classifier (`core/retry.py`)

A raised Python exception is observed by `is_retryable_error` only through
`type(error).__name__` and `str(error)`, so it is embedded as that pair. -/

/-- A raised Python exception, as the pair the gateway inspects:
`type(error).__name__` and `str(error)`. -/
structure PyErr where
  typeName : String
  msg : String
deriving DecidableEq, Repr

/-- `RetryableErrorType` (retry.py:12-17). -/
inductive RetryableErrorType where
  | networkError | rateLimit | temporaryError | timeout
deriving DecidableEq, Repr

/-- `is_retryable_error` (retry.py:28-92): keyword/type-name pattern match
returning (retryable?, bucket). -/
def isRetryableError (e : PyErr) : Bool × Option RetryableErrorType :=
  let errorMsg := lowerStr e.msg
  let errorType := e.typeName
  if anyContains errorMsg ["connection", "network", "timeout", "refused", "reset",
        "dns", "unreachable", "socket"]
      || anyContains errorType ["ConnectionError", "TimeoutError", "NetworkError", "ClientError"] then
    (true, some .networkError)
  else if anyContains errorMsg ["rate limit", "ratelimit", "too many requests", "429"] then
    (true, some .rateLimit)
  else if anyContains errorMsg ["500", "502", "503", "504", "internal server error",
        "bad gateway", "service unavailable", "gateway timeout"] then
    (true, some .temporaryError)
  else if strContains errorMsg "timeout" || strContains errorType "Timeout" then
    (true, some .timeout)
  else if anyContains errorMsg ["401", "403", "unauthorized", "forbidden", "authentication",
        "api_key", "api key", "invalid key", "invalid api"] then
    (false, none)
  else if anyContains errorMsg ["400", "422", "invalid request", "bad request", "validation"] then
    (false, none)
  else if anyContains errorMsg ["404", "not found", "model not found"] then
    (false, none)
  else if anyContains errorType ["ConnectionError", "TimeoutError", "NetworkError"] then
    (true, some .networkError)
  else
    (false, none)

/-! ## Retry configuration and backoff delays (`RetryConfig`, retry.py:95-144)

Python floats are embedded as `ℚ`; `random.random()` is an explicit
parameter `rand ∈ [0,1)`. -/

/-- `RetryConfig` (retry.py:95-120). -/
structure RetryConfig where
  max_retries : Nat
  initial_delay : ℚ
  max_delay : ℚ
  exponential_base : ℚ
  jitter : Bool
deriving DecidableEq, Repr

/-- The constructor defaults of `RetryConfig` (retry.py:98-104):
`max_retries=3, initial_delay=1.0, max_delay=60.0, exponential_base=2.0,
jitter=True`. -/
def defaultRetryConfig : RetryConfig :=
  { max_retries := 3, initial_delay := 1, max_delay := 60, exponential_base := 2, jitter := true }

/-- `RetryConfig.get_delay` (retry.py:122-144), with `random.random()` passed
in as `rand`. -/
def getDelay (cfg : RetryConfig) (attempt : Nat) (rand : ℚ) : ℚ :=
  let delay := cfg.initial_delay * cfg.exponential_base ^ attempt
  let delay := min delay cfg.max_delay
  if cfg.jitter then
    let jitterAmount := delay * (1/4) * (rand * 2 - 1)
    max (1/10) (delay + jitterAmount)
  else
    delay

/-! ## The retry engine (`retry_with_backoff`, retry.py:147-214)

The wrapped call is embedded as an attempt-indexed outcome function
`f : Nat → Except PyErr α` (attempt 0 is the first try).  The embedding also
counts how many attempts were issued; sleeping and the `on_retry` callback
have no observable effect on the result and are omitted. -/

/-- The `for attempt in range(config.max_retries)` loop of
`retry_with_backoff` (retry.py:185-211).  `attempt` is the index of the call
about to be made, `remaining` the number of loop iterations left, `calls`
the number of attempts already issued, `lastError` the error of the previous
attempt.  Returns the outcome together with the total number of attempts. -/
def retryLoop {α : Type} (f : Nat → Except PyErr α) :
    Nat → Nat → Nat → PyErr → Except PyErr α × Nat
  | _, 0, calls, lastError => (.error lastError, calls)
  | attempt, remaining + 1, calls, _ =>
    match f attempt with
    | .ok v => (.ok v, calls + 1)
    | .error e =>
      if (isRetryableError e).1 = false then
        (.error e, calls + 1)
      else
        match remaining with
        | 0 => (.error e, calls + 1)
        | r + 1 => retryLoop f (attempt + 1) (r + 1) (calls + 1) e

/-- `retry_with_backoff` (retry.py:147-214): first attempt, then up to
`maxRetries` retries; non-retryable errors are raised immediately; the last
error is raised when all attempts fail.  Returns the outcome together with
the number of attempts issued. -/
def retryWithBackoff {α : Type} (f : Nat → Except PyErr α) (maxRetries : Nat) :
    Except PyErr α × Nat :=
  match f 0 with
  | .ok v => (.ok v, 1)
  | .error e =>
    if (isRetryableError e).1 = false then
      (.error e, 1)
    else
      retryLoop f 1 maxRetries 1 e

/-! ## The OpenAI-format error envelope (`AIRequestHandler._send_error`)

```python
error_response = {
    "error": {
        "message": message,
        "type": "invalid_request_error" if status_code < 500 else "server_error",
        "code": str(status_code)
    }
}
```
(openai_handler.py:740-757), sent with the given HTTP status code. -/

/-- The `error` object of the body built by `_send_error`. -/
structure ErrorBody where
  message : String
  type : String
  code : String
deriving DecidableEq, Repr

/-- `_send_error` (openai_handler.py:740-757): HTTP status plus the error
envelope. -/
def sendError (statusCode : Nat) (message : String) : Nat × ErrorBody :=
  (statusCode,
    { message := message
      type := if statusCode < 500 then "invalid_request_error" else "server_error"
      code := toString statusCode })

/-! ## Adapters and the router (`core/adapter/`, `core/router.py`)

An adapter is observed by the router through `config['retry']` and through
the outcome of each `chat` call; `chat` outcomes are embedded attempt-indexed
(attempt `n` is the `n`-th call the retry engine makes). -/

/-- An adapter as the router sees it: its retry configuration and the
outcome of each successive `chat` call. -/
structure AdapterM (α : Type) where
  retryEnabled : Bool
  retryMaxRetries : Nat
  chat : Nat → Except PyErr α

/-- `dict.get` on the registry's `id → adapter` table
(`ModelRegistry.get_adapter`, registry.py:222-227). -/
def lookupTable {α : Type} (table : List (String × α)) (modelId : String) : Option α :=
  (table.find? (fun p => p.1 = modelId)).map Prod.snd

/-- `Router.route` (router.py:30-90): resolve the adapter (raising
`ValueError("模型 <id> 未找到或未启用")` when absent), then call `chat` once if
`retry.enabled` is false, else wrap it in `retry_with_backoff`. -/
def routerRoute {α : Type} (table : List (String × AdapterM α)) (modelId : String) :
    Except PyErr α :=
  match lookupTable table modelId with
  | none => .error ⟨"ValueError", "模型 " ++ modelId ++ " 未找到或未启用"⟩
  | some adapter =>
    if adapter.retryEnabled = false then
      adapter.chat 0
    else
      (retryWithBackoff adapter.chat adapter.retryMaxRetries).1

/-! ## The non-streaming `/v1/chat/completions` path
(`AIRequestHandler._handle_chat_completions`, openai_handler.py:247-344)

After parsing, the handler runs the router call and translates its outcome:
`asyncio.TimeoutError → 504`, `ValueError → 404 (str(e), unsanitised)`,
any other `Exception → 500` with `_sanitize_error`. -/

/-- What the handler sends back for one request. -/
inductive HandlerOut (α : Type) where
  | ok (status : Nat) (response : α)
  | err (response : Nat × ErrorBody)
  | streamed
deriving DecidableEq, Repr

/-- The `except` ladder around the non-streaming router call
(openai_handler.py:309-344).  Python dispatches on the exception class:
`asyncio.TimeoutError` first, then `ValueError`, then `Exception`. -/
def handleNonStream {α : Type} (res : Except PyErr α) : HandlerOut α :=
  match res with
  | .ok response => .ok 200 response
  | .error e =>
    if e.typeName = "TimeoutError" then .err (sendError 504 "Request timeout")
    else if e.typeName = "ValueError" then .err (sendError 404 e.msg)
    else .err (sendError 500 (sanitizeError e.msg))

/-- `_handle_chat_completions` after JSON parsing (openai_handler.py:265-344):
reject a missing/empty `model` with 400, dispatch streaming requests to the
SSE path, and translate the router outcome otherwise. -/
def handleChatCompletions {α : Type} (reqModel : Option String) (isStream : Bool)
    (table : List (String × AdapterM α)) : HandlerOut α :=
  match reqModel with
  | none => .err (sendError 400 "Missing 'model' field")
  | some modelId =>
    if modelId = "" then .err (sendError 400 "Missing 'model' field")
    else if isStream then .streamed
    else handleNonStream (routerRoute table modelId)

/-! ## The OpenAI-compat adapter (`core/adapter/openai_compat_adapter.py`) -/

/-- The constructor state of `OpenAICompatAdapter` (openai_compat_adapter.py:36-45)
plus its environment: whether `aiohttp` imported, the raw configured
`api_key` and `base_url` (`none` = JSON `null`/absent), and the binding id. -/
structure CompatAdapterState where
  hasAiohttp : Bool
  apiKeyRaw : Option String
  baseUrl : Option String
  modelId : String
deriving DecidableEq, Repr

/-- `self.api_key` after the constructor's normalisation
(openai_compat_adapter.py:39-42): `"not-needed"`, `""` and `"ENV:*"` become
`None`. -/
def compatApiKey (raw : Option String) : Option String :=
  match raw with
  | none => none
  | some k => if k = "not-needed" || k = "" || k.startsWith "ENV:" then none else some k

/-- Python truthiness of `self.base_url` (`None` and `""` are falsy). -/
def baseUrlTruthy (baseUrl : Option String) : Bool :=
  match baseUrl with
  | none => false
  | some u => u ≠ ""

/-- `OpenAICompatAdapter.is_available` (openai_compat_adapter.py:51-60). -/
def openaiCompatIsAvailable (st : CompatAdapterState) : Bool :=
  if st.hasAiohttp = false then false
  else if baseUrlTruthy st.baseUrl
      && (strContains (lowerStr ((st.baseUrl).getD "")) "ollama"
          || strContains (lowerStr ((st.baseUrl).getD "")) "lmstudio") then
    (st.baseUrl).isSome
  else
    (compatApiKey st.apiKeyRaw).isSome && (st.baseUrl).isSome

/-- `OpenAICompatAdapter.chat` (openai_compat_adapter.py:62-72): raise
`ValueError("模型 <id> 未配置或不可用")` when unavailable, else perform the
upstream exchange (embedded as the given outcome). -/
def openaiCompatChat {α : Type} (st : CompatAdapterState)
    (upstream : Except PyErr α) : Except PyErr α :=
  if openaiCompatIsAvailable st = false then
    .error ⟨"ValueError", "模型 " ++ st.modelId ++ " 未配置或不可用"⟩
  else upstream

/-- A `CompatAdapterState` as a router-level adapter, with the upstream
exchange of each attempt given by `upstream`. -/
def compatAdapterM {α : Type} (st : CompatAdapterState) (retryEnabled : Bool)
    (retryMaxRetries : Nat) (upstream : Nat → Except PyErr α) : AdapterM α :=
  { retryEnabled := retryEnabled
    retryMaxRetries := retryMaxRetries
    chat := fun n => openaiCompatChat st (upstream n) }

/-! ## The model registry loader (`ModelRegistry._load_models`, registry.py:86-152)

A binding from `models[]` is observed by the loader through: whether it is a
dict, whether some key starts with `_`, its (truthy) `id`, `enabled`, the
result of `_create_adapter` (which catches its own exceptions and returns
`None` on any failure, registry.py:154-180), and the behaviour of
`is_available()` (which may itself raise; the loader's `except` at
registry.py:144 catches that). -/

deriving instance DecidableEq for Except

/-- A loaded adapter as the registry observes it at registration time:
the outcome of `is_available()` (`.error` = the call raised). -/
structure RegAdapter where
  available : Except String Bool
deriving DecidableEq, Repr

/-- One entry of `config['models']`, as `_load_models` observes it. -/
structure Binding where
  isDict : Bool
  underscoreKey : Bool
  id : Option String
  enabled : Bool
  create : Option RegAdapter
deriving DecidableEq, Repr

/-- `_load_models`' per-entry loop (registry.py:101-147): skip comment
entries, non-dicts, id-less and disabled entries; create the adapter
(creation failures yield `None`, caught inside `_create_adapter`); register
it only when `is_available()` returns `True`; every other outcome — creation
failure, `False`, or an exception from `is_available()` — is logged and the
loop continues.  Returns the `id → adapter` insertions in order. -/
def loadModels : List Binding → List (String × RegAdapter)
  | [] => []
  | b :: rest =>
    if b.isDict && b.underscoreKey && b.id = none then loadModels rest
    else if b.isDict = false then loadModels rest
    else
      match b.id with
      | none => loadModels rest
      | some modelId =>
        if b.enabled = false then loadModels rest
        else
          match b.create with
          | none => loadModels rest
          | some adapter =>
            match adapter.available with
            | .ok true => (modelId, adapter) :: loadModels rest
            | .ok false => loadModels rest
            | .error _ => loadModels rest

/-- `ModelRegistry.reload` (registry.py:240-248): clear the table and run
`_load_models` again — the resulting table is `loadModels` of the new
configuration, whatever the old table was. -/
def reloadRegistry (oldTable : List (String × RegAdapter)) (bindings : List Binding) :
    List (String × RegAdapter) :=
  let _ := oldTable
  loadModels bindings

/-- A well-formed enabled binding: a dict entry with an id, enabled, whose
adapter is created and reports available. -/
def ValidBinding (b : Binding) : Prop :=
  b.isDict = true ∧ (∃ i, b.id = some i) ∧ b.enabled = true ∧
    ∃ a, b.create = some a ∧ a.available = .ok true

/-- A malformed binding in the sense of the registry-isolation property: a
dict entry with an id, enabled, whose adapter either cannot be instantiated
(or instantiation raised — `_create_adapter` returns `None` in both cases),
or whose availability check returns `False` or raises. -/
def MalformedBinding (b : Binding) : Prop :=
  b.isDict = true ∧ (∃ i, b.id = some i) ∧ b.enabled = true ∧
    (b.create = none ∨
      ∃ a, b.create = some a ∧ (a.available = .ok false ∨ ∃ m, a.available = .error m))

/-! ## The SSE streaming send loop
(`AIRequestHandler._handle_stream_response`, openai_handler.py:466-647)

The loop consumes generator events — a chunk, or an inter-frame timeout
(`asyncio.TimeoutError`, answered with a heartbeat comment) — until the
generator is exhausted (`StopAsyncIteration`), a chunk with a truthy
`finish_reason` in its first choice arrives, or 10 000 iterations have run.
After the loop, `if iteration >= max_iterations` writes one more
`data: [DONE]`.  The claims consider a completed service (no client
disconnect), so disconnect events are outside this relation. -/

/-- One choice of a stream chunk; only `finish_reason` steers the loop. -/
structure StreamChoiceM where
  finish_reason : Option String
deriving DecidableEq, Repr

/-- Modelled from the spec: the `OpenAIStreamChunk` record (§3 "Stream
chunk") is referenced throughout `src` (openai_handler.py:503,
openai_compat_adapter.py:26, websocket_adapter.py:21) but its defining
dataclass is absent from the source tree; per the spec it carries `id`,
`object="chat.completion.chunk"`, `created`, `model`, `choices` (each with a
`delta` and an optional `finish_reason`) and optional `usage`.  Only `id`
and `choices` are retained here: they are all the send loop inspects beyond
serialising the chunk verbatim. -/
structure StreamChunkM where
  id : String
  choices : List StreamChoiceM
deriving DecidableEq, Repr

/-- One event observed by the send loop while serving a stream to
completion. -/
inductive StreamEvent where
  | chunkEv (c : StreamChunkM)
  | timeoutEv
deriving DecidableEq, Repr

/-- One frame written to the client. -/
inductive Frame where
  | data (c : StreamChunkM)
  | done
  | heartbeat
deriving DecidableEq, Repr

/-- Python truthiness of `chunk.choices[0].get("finish_reason")`
(openai_handler.py:587-589): `None` and `""` are falsy. -/
def chunkTerminal (c : StreamChunkM) : Bool :=
  match c.choices with
  | [] => false
  | choice :: _ =>
    match choice.finish_reason with
    | none => false
    | some r => r ≠ ""

/-- `max_iterations` (openai_handler.py:522). -/
def maxIterations : Nat := 10000

/-- The `while not done and iteration < max_iterations` loop
(openai_handler.py:526-606): returns the frames written and the final value
of `iteration`.  `StopAsyncIteration` (event list exhausted) writes
`data: [DONE]`; a timeout writes a heartbeat and continues; a chunk is
written as a data frame, followed by `data: [DONE]` when its first choice
has a truthy `finish_reason`. -/
def sendLoop : List StreamEvent → Nat → List Frame × Nat
  | events, iteration =>
    if iteration < maxIterations then
      match events with
      | [] => ([.done], iteration + 1)
      | .timeoutEv :: rest =>
        let (frames, fin) := sendLoop rest (iteration + 1)
        (.heartbeat :: frames, fin)
      | .chunkEv c :: rest =>
        if chunkTerminal c then ([.data c, .done], iteration + 1)
        else
          let (frames, fin) := sendLoop rest (iteration + 1)
          (.data c :: frames, fin)
    else ([], iteration)

/-- `_handle_stream_response`'s frame output for a stream served to
completion: the loop's frames, then — `if iteration >= max_iterations`
(openai_handler.py:608-613) — one more `data: [DONE]`. -/
def handleStreamFrames (events : List StreamEvent) : List Frame :=
  let (frames, iteration) := sendLoop events 0
  frames ++ (if maxIterations ≤ iteration then [.done] else [])

/-! ## The canonical chat request (`OpenAIChatRequest`, base_adapter.py:19-31)

The `@dataclass` declares exactly the fields below — in particular it
declares **no** `top_k`, `seed` or `tools` field, which matters for the
Anthropic converter.  A message is a dict read via `msg.get("role", "")` and
`msg.get("content", "")`; `content` is a string, a list of part dicts, or
anything else (reached through `str(content)` where a converter falls back
to it). -/

/-- One element of a list-valued message `content`: a dict part (with its
`type`, `text` and `image_url.url` entries, absent entries `none`), or a
non-dict value (which the converters' `isinstance(part, dict)` checks
skip). -/
inductive ContentPart where
  | dictPart (ptype : Option String) (ptext : Option String) (purl : Option String)
  | nonDict
deriving DecidableEq, Repr

/-- A message `content` value. -/
inductive MsgContent where
  | ofStr (s : String)
  | ofList (parts : List ContentPart)
  | other (pyStr : String)
deriving DecidableEq, Repr

/-- One entry of `request.messages`; `role` is `msg.get("role", "")`. -/
structure MessageM where
  role : String
  content : MsgContent
deriving DecidableEq, Repr

/-- `OpenAIChatRequest` (base_adapter.py:19-31).  Faithful to the dataclass:
exactly these fields, and no `top_k`, `seed` or `tools`. -/
structure OpenAIChatRequest where
  model : String
  messages : List MessageM
  temperature : Option ℚ := none
  max_tokens : Option Int := none
  stream : Bool := false
  top_p : Option ℚ := none
  frequency_penalty : Option ℚ := none
  presence_penalty : Option ℚ := none
  stop : Option (List String) := none
  user : Option String := none
deriving DecidableEq, Repr

/-! ## The Cohere converter (`CohereConverter.convert_request`,
cohere_converter.py:15-74) -/

/-- The text-extraction prelude shared by the Cohere (and Tencent) request
loops (cohere_converter.py:29-38): a string is kept; a list keeps its dict
parts with `type == "text"`, joined by `" "`; anything else becomes
`str(content)`. -/
def extractText (content : MsgContent) : String :=
  match content with
  | .ofStr s => s
  | .ofList parts =>
    String.intercalate " " (parts.filterMap (fun p =>
      match p with
      | .dictPart ptype ptext _ =>
        if ptype = some "text" then some (ptext.getD "") else none
      | .nonDict => none))
  | .other pyStr => pyStr

/-- One entry of Cohere `chat_history`. -/
structure CohereHistEntry where
  role : String
  message : String
deriving DecidableEq, Repr

/-- The role mapping of cohere_converter.py:45:
`"CHATBOT" if role == "assistant" else "SYSTEM" if role == "system" else "USER"`. -/
def cohereRole (role : String) : String :=
  if role = "assistant" then "CHATBOT" else if role = "system" then "SYSTEM" else "USER"

/-- The message loop of `CohereConverter.convert_request`
(cohere_converter.py:21-49): a `user` message *overwrites* `message`; every
other message is appended to `chat_history`. -/
def cohereLoop : List MessageM → List CohereHistEntry → String →
    List CohereHistEntry × String
  | [], chatHistory, message => (chatHistory, message)
  | m :: rest, chatHistory, message =>
    let textContent := extractText m.content
    if m.role = "user" then
      cohereLoop rest chatHistory textContent
    else
      cohereLoop rest (chatHistory ++ [⟨cohereRole m.role, textContent⟩]) message

/-- The body built by `CohereConverter.convert_request`
(cohere_converter.py:51-74). -/
structure CohereRequest where
  model : String
  message : String
  chat_history : List CohereHistEntry
  stream : Bool
  connectors : Bool
  temperature : Option ℚ
  max_tokens : Option Int
  p : Option ℚ
  frequency_penalty : Option ℚ
  presence_penalty : Option ℚ
deriving DecidableEq, Repr

/-- `CohereConverter.convert_request` (cohere_converter.py:15-74).
`selfModel` is the converter's `self.model` (the binding's `model`, falling
back to its `id`); `connectors = true` embeds
`connectors: [{id: "web-search"}]`. -/
def cohereConvertRequest (selfModel : String) (request : OpenAIChatRequest) :
    CohereRequest :=
  let (chatHistory, message) := cohereLoop request.messages [] ""
  let model0 := if selfModel = "" then "command-r" else selfModel
  let stripped := model0.endsWith "-internet"
  let model1 := if stripped then ⟨model0.data.take (model0.data.length - 9)⟩ else model0
  { model := model1
    message := message
    chat_history := chatHistory
    stream := request.stream
    connectors := stripped
    temperature := request.temperature
    max_tokens := request.max_tokens
    p := request.top_p
    frequency_penalty := request.frequency_penalty
    presence_penalty := request.presence_penalty }

/-! ## The Anthropic converter (`core/adapter/converters/anthropic_converter.py`)

`convert_request` builds `claude_request` from `self.model`,
`request.max_tokens or 4096` and `request.stream`, reads
`request.temperature` and `request.top_p` (fields the dataclass has), and
then at anthropic_converter.py:32 reads `request.top_k` — a field
`OpenAIChatRequest` (base_adapter.py:19-31) does not declare, so the
attribute lookup raises `AttributeError` before the message loop is ever
reached. -/

/-- The body `convert_request` is headed towards (anthropic_converter.py:21-108);
never completed, since the function raises first. -/
structure ClaudeRequest where
  model : String
  max_tokens : Int
  stream : Bool
  temperature : Option ℚ
  top_p : Option ℚ
  system : Option String
  messages : List MessageM
deriving DecidableEq, Repr

/-- `AnthropicConverter.convert_request` (anthropic_converter.py:16-108).
Lines 21-31 build the partial dict and read the existing `temperature` and
`top_p` fields; line 32 evaluates `request.top_k`, and `OpenAIChatRequest`
(base_adapter.py:19-31) declares no such field, so every call raises
`AttributeError` — no request ever reaches the message loop at lines 37-85.
-/
def anthropicConvertRequest (selfModel : String) (request : OpenAIChatRequest) :
    Except PyErr ClaudeRequest :=
  let _maxTokens : Int := match request.max_tokens with
    | some n => if n = 0 then 4096 else n
    | none => 4096
  let _temperature := request.temperature
  let _topP := request.top_p
  let _ := selfModel
  .error ⟨"AttributeError", "'OpenAIChatRequest' object has no attribute 'top_k'"⟩

/-- An insertion-ordered Python `dict[str, str]`: setting an existing key
overwrites in place, a new key is appended. -/
def dictSet (d : List (String × String)) (k v : String) : List (String × String) :=
  if d.any (fun p => p.1 = k) then
    d.map (fun p => if p.1 = k then (k, v) else p)
  else d ++ [(k, v)]

/-- Python `dict.get(k)` on the header dict. -/
def dictGet (d : List (String × String)) (k : String) : Option String :=
  (d.find? (fun p => p.1 = k)).map Prod.snd

/-- `AnthropicConverter.get_request_headers` (anthropic_converter.py:179-200).
`cfgApiKey` is `config.get("api_key", "")`, `env` the process environment
(for `ENV:`-prefixed keys). -/
def anthropicHeaders (cfgApiKey : String) (selfModel : String)
    (env : List (String × String)) : List (String × String) :=
  let headers : List (String × String) :=
    [("Content-Type", "application/json"),
     ("x-api-key", cfgApiKey),
     ("anthropic-version", "2023-06-01"),
     ("anthropic-beta", "messages-2023-12-15")]
  let apiKey :=
    if cfgApiKey.startsWith "ENV:" then ((lookupTable env (cfgApiKey.drop 4)).getD "")
    else cfgApiKey
  let headers := dictSet headers "x-api-key" apiKey
  let headers :=
    if strContains selfModel "claude-3-5-sonnet" then
      dictSet headers "anthropic-beta" "max-tokens-3-5-sonnet-2024-07-15"
    else headers
  headers

/-! ## SHA-256 and HMAC-SHA256 (`hashlib.sha256`, `hmac.new(..., hashlib.sha256)`)

The Tencent signer calls into Python's `hashlib`/`hmac`; these are embedded
as executable pure functions over byte lists (`List Nat`, each byte `< 256`),
FIPS 180-4 / FIPS 198-1.  32-bit words are `Nat` reduced `% 2 ^ 32`. -/

/-- Truncate to a 32-bit word. -/
def w32 (n : Nat) : Nat := n % 2 ^ 32

/-- 32-bit right-rotation. -/
def rotr32 (x n : Nat) : Nat := w32 ((x >>> n) ||| (x <<< (32 - n)))

/-- SHA-256 `Ch`. -/
def shaCh (x y z : Nat) : Nat := (x &&& y) ^^^ ((x ^^^ (2 ^ 32 - 1)) &&& z)

/-- SHA-256 `Maj`. -/
def shaMaj (x y z : Nat) : Nat := (x &&& y) ^^^ (x &&& z) ^^^ (y &&& z)

/-- SHA-256 `Σ₀`. -/
def bsig0 (x : Nat) : Nat := rotr32 x 2 ^^^ rotr32 x 13 ^^^ rotr32 x 22

/-- SHA-256 `Σ₁`. -/
def bsig1 (x : Nat) : Nat := rotr32 x 6 ^^^ rotr32 x 11 ^^^ rotr32 x 25

/-- SHA-256 `σ₀`. -/
def ssig0 (x : Nat) : Nat := rotr32 x 7 ^^^ rotr32 x 18 ^^^ (x >>> 3)

/-- SHA-256 `σ₁`. -/
def ssig1 (x : Nat) : Nat := rotr32 x 17 ^^^ rotr32 x 19 ^^^ (x >>> 10)

/-- The 64 SHA-256 round constants. -/
def shaK : List Nat :=
  [1116352408, 1899447441, 3049323471, 3921009573, 961987163,
   1508970993, 2453635748, 2870763221, 3624381080, 310598401,
   607225278, 1426881987, 1925078388, 2162078206, 2614888103,
   3248222580, 3835390401, 4022224774, 264347078, 604807628,
   770255983, 1249150122, 1555081692, 1996064986, 2554220882,
   2821834349, 2952996808, 3210313671, 3336571891, 3584528711,
   113926993, 338241895, 666307205, 773529912, 1294757372,
   1396182291, 1695183700, 1986661051, 2177026350, 2456956037,
   2730485921, 2820302411, 3259730800, 3345764771, 3516065817,
   3600352804, 4094571909, 275423344, 430227734, 506948616,
   659060556, 883997877, 958139571, 1322822218, 1537002063,
   1747873779, 1955562222, 2024104815, 2227730452, 2361852424,
   2428436474, 2756734187, 3204031479, 3329325298]

/-- The eight SHA-256 initial hash values. -/
structure ShaState where
  h0 : Nat
  h1 : Nat
  h2 : Nat
  h3 : Nat
  h4 : Nat
  h5 : Nat
  h6 : Nat
  h7 : Nat
deriving DecidableEq, Repr

/-- SHA-256 initial state. -/
def shaIV : ShaState :=
  ⟨1779033703, 3144134277, 1013904242, 2773480762,
   1359893119, 2600822924, 528734635, 1541459225⟩

/-- SHA-256 padding: append `0x80`, zeros to 56 mod 64, then the bit length
as 8 big-endian bytes. -/
def shaPad (msg : List Nat) : List Nat :=
  let len := msg.length
  let bitLen := len * 8
  let zeros := (56 + 64 - (len + 1) % 64) % 64
  msg ++ [0x80] ++ List.replicate zeros 0 ++
    [bitLen >>> 56 % 256, bitLen >>> 48 % 256, bitLen >>> 40 % 256, bitLen >>> 32 % 256,
     bitLen >>> 24 % 256, bitLen >>> 16 % 256, bitLen >>> 8 % 256, bitLen % 256]

/-- Split a byte list into 64-byte blocks. -/
def shaBlocks : List Nat → List (List Nat)
  | [] => []
  | b :: rest => ((b :: rest).take 64) :: shaBlocks ((b :: rest).drop 64)
termination_by l => l.length
decreasing_by simp; omega

/-- Parse a 64-byte block into its 16 big-endian 32-bit words. -/
def blockWords : List Nat → List Nat
  | b0 :: b1 :: b2 :: b3 :: rest =>
    (b0 <<< 24 ||| b1 <<< 16 ||| b2 <<< 8 ||| b3) :: blockWords rest
  | _ => []

/-- Extend the 16 message-schedule words to 64. -/
def extendSchedule : Nat → List Nat → List Nat
  | 0, ws => ws
  | k + 1, ws =>
    let n := ws.length
    let newWord := w32 (ssig1 (ws.getD (n - 2) 0) + ws.getD (n - 7) 0 +
      ssig0 (ws.getD (n - 15) 0) + ws.getD (n - 16) 0)
    extendSchedule k (ws ++ [newWord])

/-- The eight working variables of one compression round. -/
structure ShaRound where
  a : Nat
  b : Nat
  c : Nat
  d : Nat
  e : Nat
  f : Nat
  g : Nat
  h : Nat
deriving DecidableEq, Repr

/-- One SHA-256 compression round. -/
def shaRoundStep (r : ShaRound) (kw : Nat × Nat) : ShaRound :=
  let t1 := w32 (r.h + bsig1 r.e + shaCh r.e r.f r.g + kw.1 + kw.2)
  let t2 := w32 (bsig0 r.a + shaMaj r.a r.b r.c)
  ⟨w32 (t1 + t2), r.a, r.b, r.c, w32 (r.d + t1), r.e, r.f, r.g⟩

/-- Compress one 64-byte block into the running state. -/
def shaCompress (st : ShaState) (block : List Nat) : ShaState :=
  let ws := extendSchedule 48 (blockWords block)
  let r0 : ShaRound := ⟨st.h0, st.h1, st.h2, st.h3, st.h4, st.h5, st.h6, st.h7⟩
  let r := (shaK.zip ws).foldl shaRoundStep r0
  ⟨w32 (st.h0 + r.a), w32 (st.h1 + r.b), w32 (st.h2 + r.c), w32 (st.h3 + r.d),
   w32 (st.h4 + r.e), w32 (st.h5 + r.f), w32 (st.h6 + r.g), w32 (st.h7 + r.h)⟩

/-- Serialize a 32-bit word as 4 big-endian bytes. -/
def wordBytes (x : Nat) : List Nat :=
  [x >>> 24 % 256, x >>> 16 % 256, x >>> 8 % 256, x % 256]

/-- Serialize the final state as the 32-byte digest. -/
def shaDigest (st : ShaState) : List Nat :=
  wordBytes st.h0 ++ wordBytes st.h1 ++ wordBytes st.h2 ++ wordBytes st.h3 ++
    wordBytes st.h4 ++ wordBytes st.h5 ++ wordBytes st.h6 ++ wordBytes st.h7

/-- SHA-256 of a byte list (`hashlib.sha256(...).digest()`). -/
def sha256 (msg : List Nat) : List Nat :=
  shaDigest ((shaBlocks (shaPad msg)).foldl shaCompress shaIV)

/-- HMAC-SHA256 (`hmac.new(key, msg, hashlib.sha256).digest()`,
FIPS 198-1): hash over-long keys, zero-pad to the 64-byte block, then the
nested ipad/opad hashes. -/
def hmacSha256 (key msg : List Nat) : List Nat :=
  let k := if 64 < key.length then sha256 key else key
  let k0 := k ++ List.replicate (64 - k.length) 0
  sha256 ((k0.map (fun b => b ^^^ 0x5c)) ++ sha256 ((k0.map (fun b => b ^^^ 0x36)) ++ msg))

/-- UTF-8 encoding of one character (Python `str.encode()`). -/
def charUtf8 (c : Char) : List Nat :=
  let n := c.toNat
  if n < 0x80 then [n]
  else if n < 0x800 then [0xC0 + n / 64, 0x80 + n % 64]
  else if n < 0x10000 then [0xE0 + n / 4096, 0x80 + (n / 64) % 64, 0x80 + n % 64]
  else [0xF0 + n / 0x40000, 0x80 + (n / 4096) % 64, 0x80 + (n / 64) % 64, 0x80 + n % 64]

/-- UTF-8 bytes of a string (Python `s.encode()`). -/
def utf8 (s : String) : List Nat := s.data.flatMap charUtf8

/-- Lower-case hex digit of a nibble. -/
def hexDigit (n : Nat) : Char :=
  Char.ofNat (if n < 10 then 48 + n else 87 + n)

/-- Python `bytes.hex()`: two lower-case hex digits per byte. -/
def bytesToHex (bs : List Nat) : String :=
  ⟨bs.flatMap (fun b => [hexDigit (b / 16 % 16), hexDigit (b % 16)])⟩

/-- `TencentConverter._sha256hex` (tencent_converter.py:47-49):
`hashlib.sha256(s.encode()).hexdigest()`. -/
def sha256hex (s : String) : String := bytesToHex (sha256 (utf8 s))

/-! ## The Tencent TC3-HMAC-SHA256 signer
(`TencentConverter._get_signature`, tencent_converter.py:51-111)

The source reads the clock (`timestamp = int(time.time())`, and the UTC
`date` derived from it) and serialises the body with `json.dumps`; both are
injected as parameters (`ts`, `date`, and the serialised `payload`), per the
spec's "pure functions of (credentials, request_bytes, clock)". -/

/-- The canonical request of tencent_converter.py:56-71 for a serialised
`payload`. -/
def tencentCanonicalRequest (payload : String) : String :=
  let host := "hunyuan.tencentcloudapi.com"
  let httpRequestMethod := "POST"
  let canonicalUri := "/"
  let canonicalQueryString := ""
  let canonicalHeaders :=
    "content-type:application/json\nhost:" ++ host ++ "\nx-tc-action:" ++
      lowerStr "ChatCompletions" ++ "\n"
  let signedHeaders := "content-type;host;x-tc-action"
  let hashedRequestPayload := sha256hex payload
  httpRequestMethod ++ "\n" ++ canonicalUri ++ "\n" ++ canonicalQueryString ++ "\n" ++
    canonicalHeaders ++ "\n" ++ signedHeaders ++ "\n" ++ hashedRequestPayload

/-- `TencentConverter._get_signature` (tencent_converter.py:51-111): the full
`Authorization` header value. -/
def tencentGetSignature (secretId secretKey payload : String) (ts : Nat) (date : String) :
    String :=
  let algorithm := "TC3-HMAC-SHA256"
  let credentialScope := date ++ "/hunyuan/tc3_request"
  let hashedCanonicalRequest := sha256hex (tencentCanonicalRequest payload)
  let stringToSign := algorithm ++ "\n" ++ toString ts ++ "\n" ++ credentialScope ++ "\n" ++
    hashedCanonicalRequest
  let secretDateBytes := hmacSha256 (utf8 ("TC3" ++ secretKey)) (utf8 date)
  let secretServiceBytes := hmacSha256 secretDateBytes (utf8 "hunyuan")
  let secretSigningBytes := hmacSha256 secretServiceBytes (utf8 "tc3_request")
  let signatureBytes := hmacSha256 secretSigningBytes (utf8 stringToSign)
  let signature := bytesToHex signatureBytes
  algorithm ++ " Credential=" ++ secretId ++ "/" ++ credentialScope ++
    ", SignedHeaders=" ++ "content-type;host;x-tc-action" ++ ", Signature=" ++ signature

/-- The signature value exactly as claim/spec scenario 6 words it: the hex of
`HMAC(HMAC(HMAC(HMAC("TC3"+secret_key, date), "hunyuan"), "tc3_request"),
"TC3-HMAC-SHA256\n"+ts+"\n"+date+"/hunyuan/tc3_request\n"+SHA256_hex(canonical_request))`,
with the canonical request built over `POST`, path `/`, the headers
`content-type`/`host`/`x-tc-action` (action lower-cased) and the SHA-256 hex
of the serialised body. -/
def tencentSpecSignature (secretKey payload : String) (ts : Nat) (date : String) : String :=
  bytesToHex (hmacSha256
    (hmacSha256 (hmacSha256 (hmacSha256 (utf8 ("TC3" ++ secretKey)) (utf8 date))
      (utf8 "hunyuan")) (utf8 "tc3_request"))
    (utf8 ("TC3-HMAC-SHA256\n" ++ toString ts ++ "\n" ++ date ++ "/hunyuan/tc3_request\n" ++
      sha256hex ("POST\n/\n\ncontent-type:application/json\nhost:hunyuan.tencentcloudapi.com\nx-tc-action:chatcompletions\n\ncontent-type;host;x-tc-action\n" ++
        sha256hex payload))))

/-- Hex-digit alphabet membership. -/
def isHexDigitChar (c : Char) : Bool :=
  c ∈ "0123456789abcdef".data

/-! # Theorems -/

/-! ## String and list helper lemmas -/

theorem strContains_iff (hay needle : String) :
    strContains hay needle = true ↔ needle.data <:+: hay.data := by
  simp [strContains]

theorem data_append (s t : String) : (s ++ t).data = s.data ++ t.data := rfl

theorem lowerStr_data (s : String) : (lowerStr s).data = s.data.map Char.toLower := rfl

/-- An infix of a list followed by one extra element is an infix of the list
itself, or it contains the extra element. -/
theorem infix_concat_elim {α : Type} [DecidableEq α] {s xs : List α} {a : α}
    (h : s <:+: xs ++ [a]) : s <:+: xs ∨ a ∈ s := by
  obtain ⟨u, v, huv⟩ := h
  rcases List.eq_nil_or_concat v with rfl | ⟨v', b, rfl⟩
  · rcases List.eq_nil_or_concat s with rfl | ⟨s', c, rfl⟩
    · exact Or.inl ⟨[], xs, rfl⟩
    · right
      have h2 : (u ++ s') ++ [c] = xs ++ [a] := by
        simp only [List.append_assoc]
        simpa [List.concat_eq_append, List.append_assoc] using huv
      have h3 := List.append_inj' h2 rfl
      have hca : c = a := by simpa using h3.2
      simp [List.concat_eq_append, hca]
  · left
    have h2 : (u ++ s ++ v') ++ [b] = xs ++ [a] := by
      simp only [List.append_assoc]
      simpa [List.concat_eq_append, List.append_assoc] using huv
    have h3 := List.append_inj' h2 rfl
    exact ⟨u, v', h3.1⟩

/-- An infix avoiding every element of the tail `u` is an infix of the head
`t` of the concatenation. -/
theorem infix_append_of_disjoint {α : Type} [DecidableEq α] {s t u : List α}
    (h : s <:+: t ++ u) (hdisj : ∀ a ∈ u, a ∉ s) : s <:+: t := by
  induction u using List.reverseRecOn generalizing s with
  | nil => simpa using h
  | append_singleton u' a ih =>
    have h' : s <:+: (t ++ u') ++ [a] := by simpa [List.append_assoc] using h
    rcases infix_concat_elim h' with h2 | h2
    · exact ih h2 (fun b hb => hdisj b (by simp [hb]))
    · exact absurd h2 (hdisj a (by simp))

/-! ## Retry-engine lemmas -/

theorem retryLoop_const_error {α : Type} (f : Nat → Except PyErr α) (e : PyErr)
    (hf : ∀ n, f n = .error e) :
    ∀ remaining attempt calls lastError, 0 < remaining →
      (retryLoop f attempt remaining calls lastError).1 = .error e := by
  intro remaining
  induction remaining with
  | zero => intro _ _ _ h; omega
  | succ r ih =>
    intro attempt calls lastError _
    rw [retryLoop, hf attempt]
    by_cases hr : (isRetryableError e).1 = false
    · simp [hr]
    · cases r with
      | zero => simp [hr]
      | succ r' => simpa [hr] using ih (attempt + 1) (calls + 1) e (by omega)

/-- If every attempt raises the same error, `retry_with_backoff` raises that
error. -/
theorem retryWithBackoff_const_error {α : Type} (f : Nat → Except PyErr α) (e : PyErr)
    (hf : ∀ n, f n = .error e) (maxRetries : Nat) :
    (retryWithBackoff f maxRetries).1 = .error e := by
  rw [retryWithBackoff, hf 0]
  by_cases hr : (isRetryableError e).1 = false
  · simp [hr]
  · cases maxRetries with
    | zero => simp [hr, retryLoop]
    | succ m => simpa [hr] using retryLoop_const_error f e hf (m + 1) 1 1 e (by omega)

/-! ## Registry-loader lemmas -/

theorem loadModels_valid_cons (b : Binding) (rest : List Binding) (hb : ValidBinding b) :
    ∃ i a, b.id = some i ∧ b.create = some a ∧
      loadModels (b :: rest) = (i, a) :: loadModels rest := by
  obtain ⟨hdict, ⟨i, hid⟩, hen, a, hcr, hav⟩ := hb
  refine ⟨i, a, hid, hcr, ?_⟩
  simp [loadModels, hdict, hid, hen, hcr, hav]

theorem loadModels_malformed_cons (b : Binding) (rest : List Binding)
    (hb : MalformedBinding b) : loadModels (b :: rest) = loadModels rest := by
  obtain ⟨hdict, ⟨i, hid⟩, hen, hfail⟩ := hb
  rcases hfail with hcr | ⟨a, hcr, hav⟩
  · simp [loadModels, hdict, hid, hen, hcr]
  · rcases hav with hav | ⟨m, hav⟩ <;> simp [loadModels, hdict, hid, hen, hcr, hav]

theorem loadModels_all_valid (bs : List Binding) (h : ∀ b ∈ bs, ValidBinding b) :
    (loadModels bs).length = bs.length ∧
      (loadModels bs).map Prod.fst = bs.map (fun b => (b.id).getD "") := by
  induction bs with
  | nil => simp [loadModels]
  | cons b rest ih =>
    obtain ⟨i, a, hid, _, heq⟩ := loadModels_valid_cons b rest (h b (by simp))
    have ih' := ih (fun b hb => h b (by simp [hb]))
    simp [heq, ih'.1, ih'.2, hid]

theorem loadModels_append (xs ys : List Binding) :
    loadModels (xs ++ ys) = loadModels xs ++ loadModels ys := by
  induction xs with
  | nil => simp [loadModels]
  | cons b rest ih =>
    by_cases h1 : b.isDict && b.underscoreKey && b.id = none
    · simp [loadModels, h1, ih]
    · by_cases h2 : b.isDict = false
      · simp [loadModels, h1, h2, ih]
      · match hid : b.id with
        | none => simp [loadModels, h1, h2, hid, ih]
        | some modelId =>
          by_cases h3 : b.enabled = false
          · simp [loadModels, h1, h2, hid, h3, ih]
          · match hcr : b.create with
            | none => simp [loadModels, h1, h2, hid, h3, hcr, ih]
            | some a =>
              match hav : a.available with
              | .ok true => simp [loadModels, h1, h2, hid, h3, hcr, hav, ih]
              | .ok false => simp [loadModels, h1, h2, hid, h3, hcr, hav, ih]
              | .error m => simp [loadModels, h1, h2, hid, h3, hcr, hav, ih]

/-! ## Digest-shape lemmas -/

theorem sha256_length (msg : List Nat) : (sha256 msg).length = 32 := by
  simp [sha256, shaDigest, wordBytes]

theorem hmacSha256_length (key msg : List Nat) : (hmacSha256 key msg).length = 32 :=
  sha256_length _

theorem bytesToHex_length (bs : List Nat) : (bytesToHex bs).length = 2 * bs.length := by
  have : ∀ l : List Nat,
      (l.flatMap (fun b => [hexDigit (b / 16 % 16), hexDigit (b % 16)])).length = 2 * l.length := by
    intro l
    induction l with
    | nil => rfl
    | cons b bs ih => simp [ih]; omega
  simpa [bytesToHex, String.length] using this bs

theorem hexDigit_isHex (n : Nat) (h : n < 16) : isHexDigitChar (hexDigit n) = true := by
  interval_cases n <;> decide

theorem bytesToHex_chars (bs : List Nat) :
    ∀ c ∈ (bytesToHex bs).data, isHexDigitChar c = true := by
  have key : ∀ l : List Nat,
      ∀ c ∈ l.flatMap (fun b => [hexDigit (b / 16 % 16), hexDigit (b % 16)]),
        isHexDigitChar c = true := by
    intro l
    induction l with
    | nil => simp
    | cons b bs ih =>
      intro c hc
      rw [List.flatMap_cons, List.mem_append] at hc
      rcases hc with hc | hc
      · rcases List.mem_pair.mp (by simpa using hc) with h | h
        · exact h ▸ hexDigit_isHex _ (Nat.mod_lt _ (by norm_num))
        · exact h ▸ hexDigit_isHex _ (Nat.mod_lt _ (by norm_num))
      · exact ih c hc
  exact fun c hc => key bs c hc

/-- Merge a literal prefix pair under a right-associated append. -/
theorem append_append_lit (a b c x : String) (h : a ++ b = c) :
    a ++ (b ++ x) = c ++ x := by rw [← String.append_assoc, h]

theorem tencentCanonicalRequest_eq (payload : String) :
    tencentCanonicalRequest payload =
      "POST\n/\n\ncontent-type:application/json\nhost:hunyuan.tencentcloudapi.com\nx-tc-action:chatcompletions\n\ncontent-type;host;x-tc-action\n" ++
        sha256hex payload := by
  have hlow : lowerStr "ChatCompletions" = "chatcompletions" := by decide
  show "POST" ++ "\n" ++ "/" ++ "\n" ++ "" ++ "\n" ++
      ("content-type:application/json\nhost:" ++ "hunyuan.tencentcloudapi.com" ++
        "\nx-tc-action:" ++ lowerStr "ChatCompletions" ++ "\n") ++ "\n" ++
      "content-type;host;x-tc-action" ++ "\n" ++ sha256hex payload = _
  rw [hlow]
  exact congrArg (· ++ sha256hex payload) (by decide)

/-- C6: For every request body (serialised as `payload`), `secret_key`,
`secret_id`, timestamp `ts` and its UTC `date`, the Tencent signer produces
an `Authorization` header of the form `TC3-HMAC-SHA256
Credential=<secret_id>/<date>/hunyuan/tc3_request,
SignedHeaders=content-type;host;x-tc-action, Signature=<sig>`, where `<sig>`
is the 64-hex-char value of the nested HMAC chain
`HMAC(HMAC(HMAC(HMAC("TC3"+secret_key, date), "hunyuan"), "tc3_request"),
"TC3-HMAC-SHA256\n"+ts+"\n"+date+"/hunyuan/tc3_request\n"+SHA256_hex(canonical_request))`
with the canonical request built over `POST`, path `/`, the headers
`content-type`/`host`/`x-tc-action` (action lower-cased) and the SHA-256 hex
of the serialised body. -/
theorem tencent_signature_form (secretId secretKey payload : String) (ts : Nat) (date : String) :
    tencentGetSignature secretId secretKey payload ts date =
      "TC3-HMAC-SHA256 Credential=" ++ secretId ++ "/" ++ date ++
        "/hunyuan/tc3_request, SignedHeaders=content-type;host;x-tc-action, Signature=" ++
        tencentSpecSignature secretKey payload ts date ∧
    (tencentSpecSignature secretKey payload ts date).length = 64 ∧
    ∀ c ∈ (tencentSpecSignature secretKey payload ts date).data, isHexDigitChar c = true := by
  refine ⟨?_, ?_, ?_⟩
  · simp only [tencentGetSignature, tencentSpecSignature]
    rw [tencentCanonicalRequest_eq payload]
    simp only [String.append_assoc]
    rw [append_append_lit "TC3-HMAC-SHA256" "\n" "TC3-HMAC-SHA256\n" _ (by decide),
      append_append_lit "/hunyuan/tc3_request" "\n" "/hunyuan/tc3_request\n" _ (by decide),
      append_append_lit "TC3-HMAC-SHA256" " Credential=" "TC3-HMAC-SHA256 Credential=" _
        (by decide),
      append_append_lit "content-type;host;x-tc-action" ", Signature="
        "content-type;host;x-tc-action, Signature=" _ (by decide),
      append_append_lit ", SignedHeaders=" "content-type;host;x-tc-action, Signature="
        ", SignedHeaders=content-type;host;x-tc-action, Signature=" _ (by decide),
      append_append_lit "/hunyuan/tc3_request"
        ", SignedHeaders=content-type;host;x-tc-action, Signature="
        "/hunyuan/tc3_request, SignedHeaders=content-type;host;x-tc-action, Signature=" _
        (by decide)]
  · simp [tencentSpecSignature, bytesToHex_length, hmacSha256_length]
  · intro c hc
    exact bytesToHex_chars _ c (by simpa [tencentSpecSignature] using hc)

/-- C6 witness: the signature form at concrete credentials, payload and
frozen clock. -/
theorem tencent_signature_form_witness :
    tencentGetSignature "AKIDtest" "sk" "payload" 1704067200 "2024-01-01" =
      "TC3-HMAC-SHA256 Credential=" ++ "AKIDtest" ++ "/" ++ "2024-01-01" ++
        "/hunyuan/tc3_request, SignedHeaders=content-type;host;x-tc-action, Signature=" ++
        tencentSpecSignature "sk" "payload" 1704067200 "2024-01-01" ∧
    (tencentSpecSignature "sk" "payload" 1704067200 "2024-01-01").length = 64 ∧
    ∀ c ∈ (tencentSpecSignature "sk" "payload" 1704067200 "2024-01-01").data,
      isHexDigitChar c = true :=
  tencent_signature_form "AKIDtest" "sk" "payload" 1704067200 "2024-01-01"

/-! ## Backoff delays (C5) -/

/-- C5 counterexample: with the default configuration (jitter enabled,
`max_delay = 60`), retry attempt 6 with `random.random() = 0.75` yields a
delay of 67.5 s — the jittered delay exceeds `max_delay`, refuting
"d_i ≤ max_delay (whether or not jitter is enabled)". -/
theorem getDelay_jitter_exceeds_max_delay :
    getDelay defaultRetryConfig 6 (3/4) = 135/2 ∧ ¬(getDelay defaultRetryConfig 6 (3/4) ≤ 60) := by
  constructor <;> norm_num [getDelay, defaultRetryConfig]

/-- C5 (amended): without jitter the delay before retry `i` equals
`min(initial_delay · base^i, max_delay)` and hence is at most `max_delay`;
with jitter it is at most `max(0.1, 1.25 · min(initial_delay · base^i,
max_delay))`, so it may exceed `max_delay` by up to 25 %. -/
theorem getDelay_bounds (cfg : RetryConfig) (i : Nat) (r : ℚ) (h0 : 0 ≤ r) (h1 : r < 1) :
    (cfg.jitter = false →
      getDelay cfg i r = min (cfg.initial_delay * cfg.exponential_base ^ i) cfg.max_delay ∧
        getDelay cfg i r ≤ cfg.max_delay) ∧
    (cfg.jitter = true →
      getDelay cfg i r ≤
        max (1/10) ((5/4) * min (cfg.initial_delay * cfg.exponential_base ^ i) cfg.max_delay)) := by
  constructor
  · intro hj
    refine ⟨by simp [getDelay, hj], ?_⟩
    simp only [getDelay, hj, Bool.false_eq_true, if_false]
    exact min_le_right _ _
  · intro hj
    simp only [getDelay, hj, if_true]
    set d := min (cfg.initial_delay * cfg.exponential_base ^ i) cfg.max_delay with hd
    rcases le_or_lt 0 d with hdpos | hdneg
    · refine max_le_max le_rfl ?_
      nlinarith
    · have hsum : d + d * (1/4) * (r * 2 - 1) ≤ 1/10 := by nlinarith
      exact max_le (le_max_left _ _) (hsum.trans (le_max_left _ _))

/-- C5 amended-claim witness at the default configuration, attempt 0,
`random.random() = 0.5`. -/
theorem getDelay_bounds_witness :
    (0 : ℚ) ≤ 1/2 ∧ (1/2 : ℚ) < 1 ∧
      ((defaultRetryConfig.jitter = false →
        getDelay defaultRetryConfig 0 (1/2) =
          min (defaultRetryConfig.initial_delay * defaultRetryConfig.exponential_base ^ 0)
            defaultRetryConfig.max_delay ∧
          getDelay defaultRetryConfig 0 (1/2) ≤ defaultRetryConfig.max_delay) ∧
       (defaultRetryConfig.jitter = true →
        getDelay defaultRetryConfig 0 (1/2) ≤
          max (1/10) ((5/4) *
            min (defaultRetryConfig.initial_delay * defaultRetryConfig.exponential_base ^ 0)
              defaultRetryConfig.max_delay))) :=
  ⟨by norm_num, by norm_num, getDelay_bounds defaultRetryConfig 0 (1/2) (by norm_num) (by norm_num)⟩

/-! ## Retry determinism (C2) -/

/-- C2: with the default retry configuration (`max_retries = 3`), a call
failing with retryable errors on the first three attempts and succeeding on
the fourth issues exactly four attempts and returns the fourth's result;
a call failing with a retryable then a non-retryable error issues exactly
two attempts and raises the non-retryable error. -/
theorem retry_determinism {α : Type} (f g : Nat → Except PyErr α) (e1 e2 e3 d1 d2 : PyErr)
    (v : α)
    (he1 : (isRetryableError e1).1 = true) (he2 : (isRetryableError e2).1 = true)
    (he3 : (isRetryableError e3).1 = true)
    (hf0 : f 0 = .error e1) (hf1 : f 1 = .error e2) (hf2 : f 2 = .error e3)
    (hf3 : f 3 = .ok v)
    (hd1 : (isRetryableError d1).1 = true) (hd2 : (isRetryableError d2).1 = false)
    (hg0 : g 0 = .error d1) (hg1 : g 1 = .error d2) :
    retryWithBackoff f defaultRetryConfig.max_retries = (.ok v, 4) ∧
    retryWithBackoff g defaultRetryConfig.max_retries = (.error d2, 2) := by
  constructor
  · show retryWithBackoff f 3 = (.ok v, 4)
    rw [retryWithBackoff, hf0]
    simp only [he1, Bool.true_eq_false, if_false]
    rw [retryLoop, hf1]
    simp only [he2, Bool.true_eq_false, if_false]
    rw [retryLoop, hf2]
    simp only [he3, Bool.true_eq_false, if_false]
    rw [retryLoop, hf3]
  · show retryWithBackoff g 3 = (.error d2, 2)
    rw [retryWithBackoff, hg0]
    simp only [hd1, Bool.true_eq_false, if_false]
    rw [retryLoop, hg1]
    simp [hd2]

/-- C2 witness: a concrete failure schedule
`[connection reset, 429, 503, success]` and a concrete
`[rate limit, 401 unauthorized]` schedule. -/
theorem retry_determinism_witness :
    retryWithBackoff
        (fun n => if n = 0 then (.error ⟨"Exception", "connection reset"⟩ : Except PyErr Nat)
          else if n = 1 then .error ⟨"Exception", "429"⟩
          else if n = 2 then .error ⟨"Exception", "503"⟩
          else .ok 7) defaultRetryConfig.max_retries = (.ok 7, 4) ∧
    retryWithBackoff
        (fun n => if n = 0 then (.error ⟨"Exception", "rate limit"⟩ : Except PyErr Nat)
          else .error ⟨"Exception", "401 unauthorized"⟩) defaultRetryConfig.max_retries =
      (.error ⟨"Exception", "401 unauthorized"⟩, 2) :=
  retry_determinism _ _ ⟨"Exception", "connection reset"⟩ ⟨"Exception", "429"⟩
    ⟨"Exception", "503"⟩ ⟨"Exception", "rate limit"⟩ ⟨"Exception", "401 unauthorized"⟩ 7
    (by decide) (by decide) (by decide) rfl rfl rfl rfl (by decide) (by decide) rfl rfl

/-! ## Error sanitisation (C3) -/

theorem toString_404 : (toString 404 : String) = "404" := by decide

theorem key_infix_api_key : ("key" : String).data <:+: ("api_key" : String).data := by decide

theorem key_infix_api_space_key : ("key" : String).data <:+: ("api key" : String).data := by
  decide

/-- If the lower-cased message does not contain `key`, it contains neither
`api_key` nor `api key`. -/
theorem no_key_no_api_key {msg : String} (hk : strContains (lowerStr msg) "key" = false) :
    strContains (lowerStr msg) "api_key" = false ∧
      strContains (lowerStr msg) "api key" = false := by
  constructor
  · by_contra h
    have h' := (strContains_iff _ _).mp (by simpa using h)
    have := (strContains_iff (lowerStr msg) "key").mpr (key_infix_api_key.trans h')
    simp [this] at hk
  · by_contra h
    have h' := (strContains_iff _ _).mp (by simpa using h)
    have := (strContains_iff (lowerStr msg) "key").mpr (key_infix_api_space_key.trans h')
    simp [this] at hk

/-- C3 (amended): the output of `_sanitize_error` never contains `api_key`
or `api key` (case-insensitively); a message containing `key`
(case-insensitively) is replaced by the generic `API 配置错误`; a message
without `key` that is longer than 200 characters is truncated to its first
200 characters plus `...`.  (The 404 path does *not* pass through the
sanitiser; see the counterexample.) -/
theorem sanitizeError_spec (msg : String) :
    strContains (lowerStr (sanitizeError msg)) "api_key" = false ∧
    strContains (lowerStr (sanitizeError msg)) "api key" = false ∧
    (strContains (lowerStr msg) "key" = true → sanitizeError msg = "API 配置错误") ∧
    (strContains (lowerStr msg) "key" = false → 200 < msg.length →
      sanitizeError msg = ⟨msg.data.take 200⟩ ++ "...") := by
  by_cases hk : strContains (lowerStr msg) "key" = true
  · have hout : sanitizeError msg = "API 配置错误" := by simp [sanitizeError, hk]
    refine ⟨?_, ?_, fun _ => hout, fun hfalse _ => by simp [hfalse] at hk⟩ <;>
      rw [hout] <;> decide
  · have hk' : strContains (lowerStr msg) "key" = false := by
      revert hk; cases strContains (lowerStr msg) "key" <;> simp
    obtain ⟨hak, hask⟩ := no_key_no_api_key hk'
    have hcond : (strContains (lowerStr msg) "api_key" || strContains (lowerStr msg) "key")
        = false := by simp [hak, hk']
    by_cases hlen : 200 < msg.length
    · have hout : sanitizeError msg = ⟨msg.data.take 200⟩ ++ "..." := by
        simp only [sanitizeError, hcond, Bool.false_eq_true, if_false]
        simp [hlen]
      have hdata : (lowerStr (sanitizeError msg)).data
          = (lowerStr msg).data.take 200 ++ ['.', '.', '.'] := by
        rw [hout]
        show (msg.data.take 200 ++ ('.' :: '.' :: '.' :: [])).map Char.toLower = _
        simp [List.map_take, lowerStr_data]
      have hdots : ∀ s : String, strContains s "key" = false →
          ¬ s.data.take 200 ++ ['.', '.', '.'] = [] → True := fun _ _ _ => trivial
      refine ⟨?_, ?_, fun htrue => by simp [htrue] at hk', fun _ _ => hout⟩
      · by_contra h
        have h' : ("api_key" : String).data <:+: (lowerStr (sanitizeError msg)).data :=
          (strContains_iff _ _).mp (by simpa using h)
        rw [hdata] at h'
        have h2 : ("api_key" : String).data <:+: (lowerStr msg).data.take 200 :=
          infix_append_of_disjoint h' (by decide)
        have h3 : (lowerStr msg).data.take 200 <:+: (lowerStr msg).data :=
          ⟨[], (lowerStr msg).data.drop 200, by simp⟩
        have := (strContains_iff (lowerStr msg) "key").mpr
          (key_infix_api_key.trans (h2.trans h3))
        simp [this] at hk'
      · by_contra h
        have h' : ("api key" : String).data <:+: (lowerStr (sanitizeError msg)).data :=
          (strContains_iff _ _).mp (by simpa using h)
        rw [hdata] at h'
        have h2 : ("api key" : String).data <:+: (lowerStr msg).data.take 200 :=
          infix_append_of_disjoint h' (by decide)
        have h3 : (lowerStr msg).data.take 200 <:+: (lowerStr msg).data :=
          ⟨[], (lowerStr msg).data.drop 200, by simp⟩
        have := (strContains_iff (lowerStr msg) "key").mpr
          (key_infix_api_space_key.trans (h2.trans h3))
        simp [this] at hk'
    · have hout : sanitizeError msg = msg := by
        simp only [sanitizeError, hcond, Bool.false_eq_true, if_false]
        simp [hlen]
      exact ⟨by rw [hout]; exact hak, by rw [hout]; exact hask,
        fun htrue => by simp [htrue] at hk', fun _ hl => absurd hl hlen⟩

set_option maxRecDepth 4000 in
/-- C3 witness: the sanitiser at a concrete 201-character message without
`key` is truncated with `...`. -/
theorem sanitizeError_spec_witness :
    strContains (lowerStr ⟨List.replicate 201 'a'⟩) "key" = false ∧
      200 < (⟨List.replicate 201 'a'⟩ : String).length ∧
      sanitizeError ⟨List.replicate 201 'a'⟩ =
        ⟨(⟨List.replicate 201 'a'⟩ : String).data.take 200⟩ ++ "..." :=
  ⟨by decide, by decide,
    (sanitizeError_spec ⟨List.replicate 201 'a'⟩).2.2.2 (by decide) (by decide)⟩

/-- C3 counterexample: the 404 path does not sanitise.  A request whose
client-supplied model id is the string `api_key` produces a 404 error body
whose message contains `api_key`. -/
theorem sanitisation_counterexample :
    handleChatCompletions (α := Nat) (some "api_key") false [] =
      .err (404, ⟨"模型 api_key 未找到或未启用", "invalid_request_error", "404"⟩) ∧
    strContains (lowerStr "模型 api_key 未找到或未启用") "api_key" = true := by
  constructor
  · rfl
  · decide

/-! ## The model-not-found 404 (C8) -/

/-- C8: for a parsed `POST /v1/chat/completions` body
`{"model": "unknown", "messages": []}` where `unknown` is not a registered
model id, the frontend responds 404 with exactly the error body
`{"error": {"message": "模型 unknown 未找到或未启用",
"type": "invalid_request_error", "code": "404"}}`. -/
theorem model_not_found_404 {α : Type} (table : List (String × AdapterM α))
    (h : lookupTable table "unknown" = none) :
    handleChatCompletions (some "unknown") false table =
      .err (404, ⟨"模型 unknown 未找到或未启用", "invalid_request_error", "404"⟩) := by
  simp [handleChatCompletions, routerRoute, h, handleNonStream, sendError, toString_404]

/-- C8 witness: the empty registry. -/
theorem model_not_found_404_witness :
    lookupTable ([] : List (String × AdapterM Nat)) "unknown" = none ∧
      handleChatCompletions (some "unknown") false ([] : List (String × AdapterM Nat)) =
        .err (404, ⟨"模型 unknown 未找到或未启用", "invalid_request_error", "404"⟩) :=
  ⟨rfl, model_not_found_404 [] rfl⟩

/-! ## ValueError → 404 translation (C10) -/

/-- C10: the frontend translates every `ValueError` escaping the
non-streaming router call into HTTP 404 with error type
`invalid_request_error` — not only the router's model-not-found error; in
particular a registered OpenAI-compat adapter whose availability check fails
at call time raises `ValueError("模型 <id> 未配置或不可用")` on every attempt,
and the client receives that message with a 404, not a 500. -/
theorem valueerror_is_404 {α : Type} (e : PyErr) (st : CompatAdapterState)
    (retryEnabled : Bool) (retryMaxRetries : Nat) (upstream : Nat → Except PyErr α)
    (table : List (String × AdapterM α)) (modelId : String)
    (hval : e.typeName = "ValueError")
    (hunavail : openaiCompatIsAvailable st = false)
    (hlook : lookupTable table modelId =
      some (compatAdapterM st retryEnabled retryMaxRetries upstream))
    (hmid : modelId ≠ "") :
    handleNonStream (α := α) (.error e) =
      .err (404, ⟨e.msg, "invalid_request_error", "404"⟩) ∧
    handleChatCompletions (some modelId) false table =
      .err (404, ⟨"模型 " ++ st.modelId ++ " 未配置或不可用", "invalid_request_error", "404"⟩) := by
  have hchat : ∀ n, (compatAdapterM st retryEnabled retryMaxRetries upstream).chat n =
      .error ⟨"ValueError", "模型 " ++ st.modelId ++ " 未配置或不可用"⟩ := by
    intro n
    simp [compatAdapterM, openaiCompatChat, hunavail]
  constructor
  · have : e.typeName ≠ "TimeoutError" := by rw [hval]; decide
    simp [handleNonStream, this, hval, sendError, toString_404]
  · have hroute : routerRoute table modelId =
        .error ⟨"ValueError", "模型 " ++ st.modelId ++ " 未配置或不可用"⟩ := by
      rw [routerRoute, hlook]
      by_cases hr : (compatAdapterM st retryEnabled retryMaxRetries upstream).retryEnabled = false
      · simp [hr, hchat 0]
      · simp only [hr, if_false]
        exact retryWithBackoff_const_error _ _ hchat _
    simp [handleChatCompletions, hmid, hroute, handleNonStream, sendError, toString_404]

/-- C10 witness: a concrete unavailable compat adapter (no `api_key`
configured) registered under `m1`. -/
theorem valueerror_is_404_witness :
    (⟨"ValueError", "boom"⟩ : PyErr).typeName = "ValueError" ∧
    openaiCompatIsAvailable ⟨true, none, some "https://api.example.com/v1", "m1"⟩ = false ∧
    handleNonStream (α := Nat) (.error ⟨"ValueError", "boom"⟩) =
      .err (404, ⟨"boom", "invalid_request_error", "404"⟩) ∧
    handleChatCompletions (some "m1") false
        [("m1", compatAdapterM (α := Nat) ⟨true, none, some "https://api.example.com/v1", "m1"⟩
          true 3 (fun _ => .ok 0))] =
      .err (404, ⟨"模型 m1 未配置或不可用", "invalid_request_error", "404"⟩) := by
  have h := valueerror_is_404 (α := Nat) ⟨"ValueError", "boom"⟩
    ⟨true, none, some "https://api.example.com/v1", "m1"⟩ true 3 (fun _ => .ok 0)
    [("m1", compatAdapterM ⟨true, none, some "https://api.example.com/v1", "m1"⟩
      true 3 (fun _ => .ok 0))] "m1" rfl (by decide) rfl (by decide)
  exact ⟨rfl, by decide, h.1, h.2⟩

/-! ## Registry isolation (C7) -/

/-- C7: for every configuration whose `models` list contains one malformed
binding (adapter not instantiable / instantiation raised / availability
check failed) among `N` well-formed enabled bindings, loading — and
reloading, which clears the table and runs the same loader — registers
exactly the `N` valid adapters, in order, and propagates no error. -/
theorem registry_isolation (pre post : List Binding) (bad : Binding)
    (hpre : ∀ b ∈ pre, ValidBinding b) (hpost : ∀ b ∈ post, ValidBinding b)
    (hbad : MalformedBinding bad) :
    loadModels (pre ++ bad :: post) = loadModels pre ++ loadModels post ∧
    (loadModels (pre ++ bad :: post)).length = pre.length + post.length ∧
    (loadModels (pre ++ bad :: post)).map Prod.fst =
      pre.map (fun b => (b.id).getD "") ++ post.map (fun b => (b.id).getD "") ∧
    ∀ oldTable, reloadRegistry oldTable (pre ++ bad :: post) =
      loadModels pre ++ loadModels post := by
  have hsplit : loadModels (pre ++ bad :: post) = loadModels pre ++ loadModels post := by
    rw [loadModels_append, loadModels_malformed_cons bad post hbad]
  have h1 := loadModels_all_valid pre hpre
  have h2 := loadModels_all_valid post hpost
  refine ⟨hsplit, ?_, ?_, fun oldTable => by rw [reloadRegistry, hsplit]⟩
  · rw [hsplit]; simp [h1.1, h2.1]
  · rw [hsplit]; simp [h1.2, h2.2]

/-- C7 witness: two valid bindings around one binding whose adapter
creation fails. -/
theorem registry_isolation_witness :
    loadModels [⟨true, false, some "a", true, some ⟨.ok true⟩⟩,
        ⟨true, false, some "bad", true, none⟩,
        ⟨true, false, some "b", true, some ⟨.ok true⟩⟩] =
      [("a", ⟨.ok true⟩), ("b", ⟨.ok true⟩)] ∧
    (loadModels [⟨true, false, some "a", true, some ⟨.ok true⟩⟩,
        ⟨true, false, some "bad", true, none⟩,
        ⟨true, false, some "b", true, some ⟨.ok true⟩⟩]).length = 2 := by
  have h := registry_isolation [⟨true, false, some "a", true, some ⟨.ok true⟩⟩]
    [⟨true, false, some "b", true, some ⟨.ok true⟩⟩] ⟨true, false, some "bad", true, none⟩
    (by intro b hb; rw [List.mem_singleton] at hb; subst hb
        exact ⟨rfl, ⟨"a", rfl⟩, rfl, ⟨⟨.ok true⟩, rfl, rfl⟩⟩)
    (by intro b hb; rw [List.mem_singleton] at hb; subst hb
        exact ⟨rfl, ⟨"b", rfl⟩, rfl, ⟨⟨.ok true⟩, rfl, rfl⟩⟩)
    ⟨rfl, ⟨"bad", rfl⟩, rfl, Or.inl rfl⟩
  exact ⟨by rw [show ([⟨true, false, some "a", true, some ⟨.ok true⟩⟩,
      ⟨true, false, some "bad", true, none⟩,
      ⟨true, false, some "b", true, some ⟨.ok true⟩⟩] : List Binding) =
        [⟨true, false, some "a", true, some ⟨.ok true⟩⟩] ++
          ⟨true, false, some "bad", true, none⟩ ::
            [⟨true, false, some "b", true, some ⟨.ok true⟩⟩] from rfl, h.1]; rfl,
    by rw [show ([⟨true, false, some "a", true, some ⟨.ok true⟩⟩,
      ⟨true, false, some "bad", true, none⟩,
      ⟨true, false, some "b", true, some ⟨.ok true⟩⟩] : List Binding) =
        [⟨true, false, some "a", true, some ⟨.ok true⟩⟩] ++
          ⟨true, false, some "bad", true, none⟩ ::
            [⟨true, false, some "b", true, some ⟨.ok true⟩⟩] from rfl]; exact h.2.1⟩

/-! ## SSE stream termination (C1) -/

theorem sendLoop_timeouts (k : Nat) : ∀ (iter : Nat) (rest : List StreamEvent)
    (frames : List Frame) (fin : Nat),
    iter + k ≤ maxIterations → sendLoop rest (iter + k) = (frames, fin) →
    sendLoop (List.replicate k StreamEvent.timeoutEv ++ rest) iter =
      (List.replicate k Frame.heartbeat ++ frames, fin) := by
  induction k with
  | zero => intro iter rest frames fin _ hrest; simpa using hrest
  | succ n ih =>
    intro iter rest frames fin h hrest
    have hlt : iter < maxIterations := by omega
    have hrest' : sendLoop rest (iter + 1 + n) = (frames, fin) := by
      have : iter + 1 + n = iter + (n + 1) := by omega
      rw [this]; exact hrest
    rw [List.replicate_succ, List.cons_append, sendLoop, if_pos hlt,
      ih (iter + 1) rest frames fin (by omega) hrest']
    simp [List.replicate_succ]

/-- C1: a stream whose terminal chunk arrives exactly on the 10 000th loop
iteration (here: 9 999 heartbeat timeouts, then the terminal chunk) is
answered with *two* `data: [DONE]` markers — the runaway-guard epilogue
fires although the loop already wrote `[DONE]` — refuting "exactly one
`data: [DONE]`, and no frames follow it". -/
theorem sse_double_done_counterexample :
    handleStreamFrames (List.replicate 9999 StreamEvent.timeoutEv ++
        [StreamEvent.chunkEv ⟨"x", [⟨some "stop"⟩]⟩]) =
      List.replicate 9999 Frame.heartbeat ++
        [Frame.data ⟨"x", [⟨some "stop"⟩]⟩, Frame.done, Frame.done] ∧
    (handleStreamFrames (List.replicate 9999 StreamEvent.timeoutEv ++
        [StreamEvent.chunkEv ⟨"x", [⟨some "stop"⟩]⟩])).count Frame.done = 2 := by
  have hstep : sendLoop [StreamEvent.chunkEv ⟨"x", [⟨some "stop"⟩]⟩] 9999 =
      ([Frame.data ⟨"x", [⟨some "stop"⟩]⟩, Frame.done], 10000) := by
    rw [sendLoop, if_pos (by norm_num [maxIterations]), if_pos (by decide)]
  have h := sendLoop_timeouts 9999 0 [StreamEvent.chunkEv ⟨"x", [⟨some "stop"⟩]⟩]
    [Frame.data ⟨"x", [⟨some "stop"⟩]⟩, Frame.done] 10000
    (by norm_num [maxIterations]) (by simpa using hstep)
  have hfr : handleStreamFrames (List.replicate 9999 StreamEvent.timeoutEv ++
      [StreamEvent.chunkEv ⟨"x", [⟨some "stop"⟩]⟩]) =
      List.replicate 9999 Frame.heartbeat ++
        [Frame.data ⟨"x", [⟨some "stop"⟩]⟩, Frame.done, Frame.done] := by
    rw [handleStreamFrames, h]
    show (List.replicate 9999 Frame.heartbeat ++
        [Frame.data ⟨"x", [⟨some "stop"⟩]⟩, Frame.done]) ++
        (if maxIterations ≤ 10000 then [Frame.done] else []) = _
    rw [if_pos (by norm_num [maxIterations])]
    exact List.append_assoc _ _ _
  have hz : (List.replicate 9999 Frame.heartbeat).count Frame.done = 0 :=
    List.count_eq_zero.mpr
      (fun hmem => absurd (List.eq_of_mem_replicate hmem) (by decide))
  refine ⟨hfr, ?_⟩
  rw [hfr, List.count_append, hz]
  decide

theorem sendLoop_completes (events : List StreamEvent) : ∀ iter : Nat,
    iter + events.length + 2 ≤ maxIterations →
    ∃ pre fin, sendLoop events iter = (pre ++ [Frame.done], fin) ∧
      Frame.done ∉ pre ∧ fin < maxIterations := by
  induction events with
  | nil =>
    intro iter h
    have hlt : iter < maxIterations := by simp at h; omega
    exact ⟨[], iter + 1, by rw [sendLoop, if_pos hlt]; rfl, by simp, by simp at h; omega⟩
  | cons e rest ih =>
    intro iter h
    have hlt : iter < maxIterations := by simp at h; omega
    cases e with
    | timeoutEv =>
      obtain ⟨pre, fin, heq, hnot, hfin⟩ := ih (iter + 1) (by simp at h ⊢; omega)
      refine ⟨Frame.heartbeat :: pre, fin, ?_, by simp [hnot], hfin⟩
      rw [sendLoop, if_pos hlt, heq]; rfl
    | chunkEv c =>
      by_cases ht : chunkTerminal c
      · refine ⟨[Frame.data c], iter + 1, ?_, by simp, by simp at h; omega⟩
        rw [sendLoop, if_pos hlt, if_pos ht]; rfl
      · obtain ⟨pre, fin, heq, hnot, hfin⟩ := ih (iter + 1) (by simp at h ⊢; omega)
        refine ⟨Frame.data c :: pre, fin, ?_, by simp [hnot], hfin⟩
        rw [sendLoop, if_pos hlt, if_neg ht, heq]; rfl

/-- C1 (amended): for every stream served to completion whose events (chunks
and heartbeat timeouts) number at most 9 998 — so that the loop's final
iteration, including the end-of-stream step, occurs strictly before the
10 000th — the frames written end with exactly one `data: [DONE]` marker and
no frames follow it; when the loop's final iteration lands exactly on the
10 000th, the runaway-guard epilogue writes a second `[DONE]` (see the
counterexample). -/
theorem sse_single_done (events : List StreamEvent) (h : events.length ≤ 9998) :
    ∃ pre, handleStreamFrames events = pre ++ [Frame.done] ∧ Frame.done ∉ pre ∧
      (handleStreamFrames events).count Frame.done = 1 := by
  obtain ⟨pre, fin, heq, hnot, hfin⟩ := sendLoop_completes events 0
    (by simp [maxIterations]; omega)
  refine ⟨pre, ?_, hnot, ?_⟩
  · rw [handleStreamFrames, heq]
    simp [Nat.not_le.mpr hfin]
  · rw [handleStreamFrames, heq]
    simp [Nat.not_le.mpr hfin, List.count_append, List.count_eq_zero.mpr hnot]

/-- C1 witness: a two-chunk stream ending with a terminal chunk. -/
theorem sse_single_done_witness :
    ([StreamEvent.chunkEv ⟨"x", [⟨none⟩]⟩,
        StreamEvent.chunkEv ⟨"x", [⟨some "stop"⟩]⟩] : List StreamEvent).length ≤ 9998 ∧
    ∃ pre, handleStreamFrames [StreamEvent.chunkEv ⟨"x", [⟨none⟩]⟩,
        StreamEvent.chunkEv ⟨"x", [⟨some "stop"⟩]⟩] = pre ++ [Frame.done] ∧
      Frame.done ∉ pre ∧
      (handleStreamFrames [StreamEvent.chunkEv ⟨"x", [⟨none⟩]⟩,
        StreamEvent.chunkEv ⟨"x", [⟨some "stop"⟩]⟩]).count Frame.done = 1 :=
  ⟨by decide, sse_single_done _ (by decide)⟩

/-! ## The Cohere converter (C9) -/

/-- The claim's "last user message's text" (`""` when there is none). -/
def lastUserText (msgs : List MessageM) : String :=
  match (msgs.filter (fun m => m.role = "user")).getLast? with
  | some m => extractText m.content
  | none => ""

theorem cohereLoop_spec (msgs : List MessageM) : ∀ hist message,
    cohereLoop msgs hist message =
      (hist ++ (msgs.filter (fun m => m.role ≠ "user")).map
          (fun m => ⟨cohereRole m.role, extractText m.content⟩),
        msgs.foldl (fun acc m => if m.role = "user" then extractText m.content else acc)
          message) := by
  induction msgs with
  | nil => intro hist message; simp [cohereLoop]
  | cons m rest ih =>
    intro hist message
    by_cases hu : m.role = "user"
    · simp [cohereLoop, hu, ih]
    · simp [cohereLoop, hu, ih, List.append_assoc]

theorem foldl_lastUser (msgs : List MessageM) : ∀ init : String,
    msgs.foldl (fun acc m => if m.role = "user" then extractText m.content else acc) init =
      (match (msgs.filter (fun m => m.role = "user")).getLast? with
        | some m => extractText m.content
        | none => init) := by
  induction msgs with
  | nil => intro init; simp
  | cons m rest ih =>
    intro init
    rw [List.foldl_cons, ih]
    by_cases hu : m.role = "user"
    · rcases hl : rest.filter (fun x => decide (x.role = "user")) with _ | ⟨b, l'⟩
      · simp [List.filter_cons, hl, hu]
      · simp [List.filter_cons, hl, hu, List.getLast?_cons_cons]
        cases hgl : (b :: l').getLast? with
        | none => exact absurd (List.getLast?_eq_none_iff.mp hgl) (by simp)
        | some x => rfl
    · simp [List.filter_cons, hu]

/-- C9 (amended): the Cohere converter makes the *last* user message's text
the `message` field; prior user turns are dropped; every non-user turn
(assistant, system, or any other role) appears in `chat_history` in order,
with role mapped `assistant→CHATBOT`, `system→SYSTEM`, anything
else→`USER`. -/
theorem cohere_request_shape (selfModel : String) (request : OpenAIChatRequest) :
    (cohereConvertRequest selfModel request).message = lastUserText request.messages ∧
    (cohereConvertRequest selfModel request).chat_history =
      (request.messages.filter (fun m => m.role ≠ "user")).map
        (fun m => ⟨cohereRole m.role, extractText m.content⟩) := by
  have h := cohereLoop_spec request.messages [] ""
  constructor
  · show (cohereLoop request.messages [] "").2 = _
    rw [h]
    simpa [lastUserText] using foldl_lastUser request.messages ""
  · show (cohereLoop request.messages [] "").1 = _
    rw [h]
    simp

/-- C9 counterexample: for messages `[user "a", assistant "b", user "c"]`
the produced `chat_history` is `[CHATBOT "b"]` — the prior user turn `"a"`
does not appear — refuting "every prior turn, user, assistant and system
alike, appears in chat_history". -/
theorem cohere_counterexample :
    (cohereConvertRequest "command-r"
        { model := "command-r",
          messages := [⟨"user", .ofStr "a"⟩, ⟨"assistant", .ofStr "b"⟩,
            ⟨"user", .ofStr "c"⟩] }).chat_history = [⟨"CHATBOT", "b"⟩] ∧
    (cohereConvertRequest "command-r"
        { model := "command-r",
          messages := [⟨"user", .ofStr "a"⟩, ⟨"assistant", .ofStr "b"⟩,
            ⟨"user", .ofStr "c"⟩] }).message = "c" ∧
    ([⟨"CHATBOT", "b"⟩] : List CohereHistEntry) ≠ [⟨"USER", "a"⟩, ⟨"CHATBOT", "b"⟩] := by
  refine ⟨?_, ?_, by decide⟩ <;> rfl

/-! ## The Anthropic converter (C4) -/

/-- C4 (amended): applied to any `OpenAIChatRequest` the frontend can build,
`AnthropicConverter.convert_request` raises
`AttributeError("'OpenAIChatRequest' object has no attribute 'top_k'")`
(the dataclass declares no `top_k` field) and produces no body; the headers
do include `anthropic-beta: max-tokens-3-5-sonnet-2024-07-15` whenever the
configured model contains `claude-3-5-sonnet`. -/
theorem anthropic_convert_raises (selfModel cfgApiKey : String)
    (env : List (String × String)) (request : OpenAIChatRequest)
    (hmodel : strContains selfModel "claude-3-5-sonnet" = true) :
    anthropicConvertRequest selfModel request =
      .error ⟨"AttributeError", "'OpenAIChatRequest' object has no attribute 'top_k'"⟩ ∧
    dictGet (anthropicHeaders cfgApiKey selfModel env) "anthropic-beta" =
      some "max-tokens-3-5-sonnet-2024-07-15" := by
  constructor
  · rfl
  · by_cases henv : cfgApiKey.startsWith "ENV:" <;>
      simp [anthropicHeaders, dictSet, dictGet, hmodel, henv]

/-- C4 amended-claim witness at the claim's model string. -/
theorem anthropic_convert_raises_witness :
    strContains "claude-3-5-sonnet-latest" "claude-3-5-sonnet" = true ∧
    anthropicConvertRequest "claude-3-5-sonnet-latest"
        { model := "claude-3-5-sonnet-latest",
          messages := [⟨"system", .ofStr "be terse"⟩, ⟨"user", .ofStr "hi"⟩],
          max_tokens := some 8 } =
      .error ⟨"AttributeError", "'OpenAIChatRequest' object has no attribute 'top_k'"⟩ ∧
    dictGet (anthropicHeaders "sk-test" "claude-3-5-sonnet-latest" []) "anthropic-beta" =
      some "max-tokens-3-5-sonnet-2024-07-15" := by
  have h := anthropic_convert_raises "claude-3-5-sonnet-latest" "sk-test" []
    { model := "claude-3-5-sonnet-latest",
      messages := [⟨"system", .ofStr "be terse"⟩, ⟨"user", .ofStr "hi"⟩],
      max_tokens := some 8 } (by decide)
  exact ⟨by decide, h.1, h.2⟩

/-- C4 counterexample: at the claim's exact request the converter does not
produce the claimed body — it raises `AttributeError` over the missing
`top_k` field of `OpenAIChatRequest`. -/
theorem anthropic_counterexample :
    anthropicConvertRequest "claude-3-5-sonnet-latest"
        { model := "claude-3-5-sonnet-latest",
          messages := [⟨"system", .ofStr "be terse"⟩, ⟨"user", .ofStr "hi"⟩],
          max_tokens := some 8 } =
      .error ⟨"AttributeError", "'OpenAIChatRequest' object has no attribute 'top_k'"⟩ := rfl

end AiService
